import Mathlib

/-!
Shallow embedding of the `llm-api` repository (konsou/llm-api), a unified
client abstraction over several LLM provider APIs.  Each Lean definition
translates one Python function of the source tree; file and line references
are given in the doc comments.  Monetary costs (Python `float`) are modelled
as rationals, environment lookup (`os.getenv`) as a function
`String → Option String`, and raised exceptions as `Except` error values.
-/

namespace LlmApiModel

/-- Message roles, from `types_request.MessageRole`
(`src/llm_api/types_request.py:19`): one of assistant, user, system, tool. -/
inductive Role
  | assistant
  | user
  | system
  | tool
deriving DecidableEq, Repr

/-- Neutral chat message, from `types_request.Message`
(`src/llm_api/types_request.py:22-27`): required `role` and `content`,
optional `name`.  (The optional `tools`/`tool_choice` entries on a message
are unused by every adapter and omitted.) -/
structure Message where
  role : Role
  content : String
  name : Option String
deriving DecidableEq, Repr

/-- From `types_request.FunctionDescription`
(`src/llm_api/types_request.py:4-7`).  The JSON-Schema `parameters` object
is carried as an o-paque string payload: no adapter inspects it. -/
structure FunctionDescription where
  description : Option String
  name : String
  parameters : String
deriving DecidableEq, Repr

/-- From `types_request.Tool` (`src/llm_api/types_request.py:10-12`);
`type` is always the literal "function". -/
structure Tool where
  type : String
  function : FunctionDescription
deriving DecidableEq, Repr

/-- The 3-mode tool-choice vocabulary of the facade signature
(`src/llm_api/abc.py:58`): "auto" | "required" | "none". -/
inductive ToolChoice
  | auto
  | required
  | none
deriving DecidableEq, Repr

/-- The `response_format` parameter (`src/llm_api/abc.py:60`):
`Literal["json"] | None`; we model the non-None value. -/
inductive RespFormat
  | json
deriving DecidableEq, Repr

/-- Normalized usage record, from `abc.Usage` (`src/llm_api/abc.py:18-22`). -/
structure Usage where
  input_tokens : Nat
  output_tokens : Nat
  cost : Option ℚ
  tag : Option String
deriving DecidableEq, Repr

/-- Errors surfaced at client construction.  `configurationError` embeds
`abc.ConfigurationError` (`src/llm_api/abc.py:14-15`); `typeError` embeds a
Python `TypeError` (e.g. calling `LlmApi.__init__` without its required
`api_key_name` argument, or instantiating a class with unimplemented
abstract methods). -/
inductive InitError
  | configurationError (msg : String)
  | typeError (msg : String)
deriving DecidableEq, Repr

/-- Facade-owned client state, from `LlmApi.__init__`
(`src/llm_api/abc.py:31-45`).  `usageEvents` is the observable trace of
`handle_usage` invocations: every invocation unconditionally emits one
structured usage record via `logger.info` (`src/llm_api/abc.py:113-120`),
so the record list counts the invocations exactly. -/
structure ClientState where
  model : String
  api_key_name : String
  timeout : Int
  api_key : String
  total_cost : ℚ
  usageEvents : List Usage
deriving DecidableEq, Repr

/-- `LlmApi.__init__` (`src/llm_api/abc.py:31-45`): stores `model`,
`api_key_name`, `timeout`, initializes `total_cost = 0`, resolves
`os.getenv(api_key_name)` and raises `ConfigurationError` when the result
is falsy (unset, i.e. `None`, or the empty string). -/
def llmApiInit (model api_key_name : String) (timeout : Int)
    (env : String → Option String) : Except InitError ClientState :=
  match env api_key_name with
  | Option.none => Except.error (InitError.configurationError
      (api_key_name ++ " env var is not set"))
  | Option.some key =>
      if key = "" then
        Except.error (InitError.configurationError
          (api_key_name ++ " env var is not set"))
      else
        Except.ok { model := model, api_key_name := api_key_name,
                    timeout := timeout, api_key := key,
                    total_cost := 0, usageEvents := [] }

/-- `AnthropicApi` instantiation (`src/llm_api/anthropic_api.py:31-41`).
The class leaves the abstract property `requires_alternating_roles`
(`src/llm_api/abc.py:47-51`) unimplemented, so Python raises `TypeError`
("Can't instantiate abstract class") in `__new__`, before
`AnthropicApi.__init__` — and with it the base constructor's credential
check — can run; no `ConfigurationError` is reachable for this class. -/
def anthropicInit (model : String) (env : String → Option String) :
    Except InitError ClientState :=
  Except.error (InitError.typeError
    "Can't instantiate abstract class AnthropicApi with abstract method requires_alternating_roles")

/-- `GroqApi.__init__` (`src/llm_api/groq_api.py:17-26`): `GroqApi`
implements both abstract members (`requires_alternating_roles` at
`src/llm_api/groq_api.py:28-30` and the response implementation), so it is
concrete and its constructor delegates to the base constructor with the
default credential name `GROQ_API_KEY`. -/
def groqInit (model : String) (env : String → Option String) :
    Except InitError ClientState :=
  llmApiInit model "GROQ_API_KEY" 5 env

/-- `OllamaApi` instantiation (`src/llm_api/ollama_api.py:11-27`).  Like
`AnthropicApi`, the class leaves the abstract property
`requires_alternating_roles` (`src/llm_api/abc.py:47-51`) unimplemented,
so instantiation raises `TypeError` in `__new__`, before `__init__` runs;
neither the `base_url` `ConfigurationError` (`src/llm_api/ollama_api.py:19-20`)
nor the base constructor's credential check is ever reached. -/
def ollamaInit (model : String) (base_url : Option String)
    (env : String → Option String) : Except InitError ClientState :=
  Except.error (InitError.typeError
    "Can't instantiate abstract class OllamaApi with abstract method requires_alternating_roles")

/-- `LlmApi.handle_usage` (`src/llm_api/abc.py:103-120`): adds `cost` to
`total_cost` when `cost is not None`, then unconditionally emits one usage
record (`logger.info`), modelled by appending to `usageEvents`. -/
def handle_usage (s : ClientState) (input_tokens output_tokens : Nat)
    (cost : Option ℚ) (tag : Option String) : ClientState :=
  let s1 := match cost with
    | Option.some c => { s with total_cost := s.total_cost + c }
    | Option.none => s
  { s1 with usageEvents :=
      s1.usageEvents ++ [⟨input_tokens, output_tokens, cost, tag⟩] }

/-- The body of `LlmApi.response_from_messages` (`src/llm_api/abc.py:64-87`)
after the delegated `_response_from_messages_implementation` call is in
hand: a raised error propagates before `handle_usage` runs; a returned
`ResponseAndUsage` is routed through `handle_usage` once and only the text
is returned. -/
def response_from_messages_step {ε : Type} (s : ClientState)
    (implResult : Except ε (String × Usage)) : ClientState × Except ε String :=
  match implResult with
  | Except.error e => (s, Except.error e)
  | Except.ok (response, usage) =>
      (handle_usage s usage.input_tokens usage.output_tokens usage.cost usage.tag,
       Except.ok response)

/-- `LlmApi.response_from_messages` (`src/llm_api/abc.py:64-87`): delegates
to the adapter's `_response_from_messages_implementation` (passed here as
the function `impl`), then applies `response_from_messages_step`. -/
def response_from_messages {ε : Type} (s : ClientState)
    (impl : List Message → Option (List Tool) → ToolChoice →
            Option String → Option RespFormat → Except ε (String × Usage))
    (messages : List Message) (tools : Option (List Tool))
    (tool_choice : ToolChoice) (tag : Option String)
    (response_format : Option RespFormat) : ClientState × Except ε String :=
  response_from_messages_step s (impl messages tools tool_choice tag response_format)

/-- A sequence of facade calls, each represented by its adapter-level
result; the client state threads through `response_from_messages_step`. -/
def run_calls {ε : Type} (s : ClientState)
    (results : List (Except ε (String × Usage))) : ClientState :=
  results.foldl (fun st r => (response_from_messages_step st r).1) s

/-- Provider transport errors.  The first three constructors embed the
exception classes caught by the retry loops of `AnthropicApi`
(`anthropic.RateLimitError`, `anthropic.BadRequestError`,
`anthropic.APITimeoutError`, `src/llm_api/anthropic_api.py:84-88`) and the
identically named `groq` classes (`src/llm_api/groq_api.py:60-64`);
`notImplemented` embeds Python `NotImplementedError`; `other` is any
exception outside those classes. -/
inductive ProviderError
  | rateLimit (msg : String)
  | badRequest (msg : String)
  | apiTimeout (msg : String)
  | notImplemented (msg : String)
  | other (msg : String)
deriving DecidableEq, Repr

/-- Whether an error belongs to the class caught by the `except` clause of
the retry loops (`src/llm_api/anthropic_api.py:84-88`,
`src/llm_api/groq_api.py:60-64`). -/
def isTransient : ProviderError → Bool
  | ProviderError.rateLimit _ => true
  | ProviderError.badRequest _ => true
  | ProviderError.apiTimeout _ => true
  | ProviderError.notImplemented _ => false
  | ProviderError.other _ => false

/-- Observable outcome of one retry-wrapped transport call: how many
attempts were issued, the argument of each `time.sleep` in order, and the
final result (the response, or the re-raised error). -/
structure RetryResult (α : Type) where
  attempts : Nat
  sleeps : List Nat
  outcome : Except ProviderError α
deriving Repr

/-- The `while True` retry loop shared verbatim by
`AnthropicApi._response_from_messages_implementation`
(`src/llm_api/anthropic_api.py:52-94`) and
`GroqApi._response_from_messages_implementation`
(`src/llm_api/groq_api.py:41-70`): attempt the transport call; on success
break; on a caught transient error re-raise if `try_number >= max_tries`,
otherwise `time.sleep(retry_delay)`, double the delay, increment
`try_number` and loop; an uncaught (non-transient) error propagates at
once.  `transport n` is the outcome of the n-th `create(...)` call. -/
def retryLoop {α : Type} (transport : Nat → Except ProviderError α)
    (try_number max_tries retry_delay : Nat)
    (attempts : Nat) (sleeps : List Nat) : RetryResult α :=
  match transport try_number with
  | Except.ok a => ⟨attempts + 1, sleeps, Except.ok a⟩
  | Except.error e =>
      if isTransient e then
        if h : try_number ≥ max_tries then
          ⟨attempts + 1, sleeps, Except.error e⟩
        else
          retryLoop transport (try_number + 1) max_tries (retry_delay * 2)
            (attempts + 1) (sleeps ++ [retry_delay])
      else
        ⟨attempts + 1, sleeps, Except.error e⟩
termination_by max_tries - try_number
decreasing_by omega

/-- Entry into the retry loop with the constants of the source:
`try_number = 1`, `max_tries = 3`, `retry_delay = 30`
(`src/llm_api/anthropic_api.py:52-54`, `src/llm_api/groq_api.py:41-43`). -/
def response_with_retry {α : Type} (transport : Nat → Except ProviderError α) :
    RetryResult α :=
  retryLoop transport 1 3 30 0 []

/-- OpenRouter usage payload, from `types_response.Usage`
(`src/llm_api/types_response.py`): `prompt_tokens`, `completion_tokens`,
`total_tokens`, `total_cost`. -/
structure ORUsage where
  prompt_tokens : Nat
  completion_tokens : Nat
  total_tokens : Nat
  total_cost : ℚ
deriving DecidableEq, Repr

/-- One element of `choices` in an OpenRouter response: the `message` key
(with its `content`) may be absent. -/
structure ORChoice where
  message : Option String
deriving DecidableEq, Repr

/-- OpenRouter response JSON as consumed by
`OpenRouterAPI.response_from_messages`: the `choices` list and the
optional `usage` object. -/
structure ORResponse where
  choices : List ORChoice
  usage : Option ORUsage
deriving DecidableEq, Repr

/-- State owned by `OpenRouterAPI` (`src/llm_api/openrouter_api.py:12-22`):
`total_cost` plus the trace of `handle_usage` invocations (each invocation
prints one line via `print_yellow`, recorded here as the `usage` value it
saw). -/
structure ORState where
  total_cost : ℚ
  usageEvents : List (Option ORUsage)
deriving DecidableEq, Repr

/-- Errors raised by `OpenRouterAPI.response_from_messages`:
`httpStatus` embeds `response.raise_for_status()`, `valueError` the
`ValueError("Response does not contain a message")`
(`src/llm_api/openrouter_api.py:55`), `indexError` the `choices[0]` access
on an empty list. -/
inductive ORError
  | httpStatus (code : Nat)
  | valueError (msg : String)
  | indexError
deriving DecidableEq, Repr

/-- `OpenRouterAPI.handle_usage` (`src/llm_api/openrouter_api.py:59-79`):
when the response has no `usage` payload, print a warning and return with
the accumulator untouched; otherwise add the payload's `total_cost` to the
running total and print the usage line.  Every invocation appends one
event. -/
def openrouter_handle_usage (s : ORState) (response : ORResponse) : ORState :=
  match response.usage with
  | Option.none => { s with usageEvents := s.usageEvents ++ [Option.none] }
  | Option.some u =>
      { total_cost := s.total_cost + u.total_cost,
        usageEvents := s.usageEvents ++ [Option.some u] }

/-- `OpenRouterAPI.response_from_messages`
(`src/llm_api/openrouter_api.py:24-57`).  This concrete client OVERRIDES
the facade operation: after the HTTP call (whose outcome, post
`raise_for_status`, is `http`), it invokes its own `handle_usage` on the
response JSON FIRST, and only then checks `choices[0]` for a `message`
key, raising `ValueError` when it is absent. -/
def openrouter_response_from_messages (s : ORState)
    (http : Except Nat ORResponse) : ORState × Except ORError String :=
  match http with
  | Except.error code => (s, Except.error (ORError.httpStatus code))
  | Except.ok response_json =>
      let s' := openrouter_handle_usage s response_json
      match response_json.choices with
      | [] => (s', Except.error ORError.indexError)
      | choice0 :: _ =>
          match choice0.message with
          | Option.some content => (s', Except.ok content)
          | Option.none =>
              (s', Except.error
                (ORError.valueError "Response does not contain a message"))

/-- `OpenRouterAPI.__init__` (`src/llm_api/openrouter_api.py:13-22`).  The
constructor calls `super().__init__(model=model)`, but the base
`LlmApi.__init__` (`src/llm_api/abc.py:31-36`) requires the positional
argument `api_key_name`, so every instantiation raises `TypeError` before
any credential check can run (the class also leaves the abstract members
`requires_alternating_roles` and `_response_from_messages_implementation`
unimplemented, which equally raises `TypeError` at instantiation); no
`ConfigurationError` path exists and `OPENROUTER_API_KEY` is read by
`os.getenv` without validation. -/
def openrouterInit (model : String) (env : String → Option String) :
    Except InitError ORState :=
  Except.error (InitError.typeError
    "LlmApi.__init__() missing 1 required positional argument: api_key_name")

/-- Whether a construction outcome is a raised `ConfigurationError`. -/
def raisesConfigurationError {σ : Type} : Except InitError σ → Bool
  | Except.error (InitError.configurationError _) => true
  | _ => false

/-- Result of `AnthropicApi._extract_system_messages`, from
`SystemPromptAndOtherMessages` (`src/llm_api/anthropic_api.py:26-28`). -/
structure SystemPromptAndOtherMessages where
  system_prompt : String
  other_messages : List Message
deriving DecidableEq, Repr

/-- The accumulator loop of `AnthropicApi._extract_system_messages`
(`src/llm_api/anthropic_api.py:147-151`): each message is appended to
`system_messages` (its content) when its role is `system`, to
`other_messages` otherwise. -/
def extractSystemGo : List Message → List String → List Message →
    List String × List Message
  | [], system_messages, other_messages => (system_messages, other_messages)
  | m :: rest, system_messages, other_messages =>
      if m.role = Role.system then
        extractSystemGo rest (system_messages ++ [m.content]) other_messages
      else
        extractSystemGo rest system_messages (other_messages ++ [m])

/-- `AnthropicApi._extract_system_messages`
(`src/llm_api/anthropic_api.py:141-156`): run the loop from empty
accumulators, then newline-join the collected system contents. -/
def extract_system_messages (messages : List Message) :
    SystemPromptAndOtherMessages :=
  let (system_messages, other_messages) := extractSystemGo messages [] []
  ⟨String.intercalate "\n" system_messages, other_messages⟩

/-- `AnthropicApi._convert_message_name_fields`
(`src/llm_api/anthropic_api.py:122-139`): a message carrying a `name` is
replaced by one whose content is the `"name: content"` fold (and which
carries no `name`); others pass through unchanged. -/
def convert_message_name_fields : List Message → List Message
  | [] => []
  | m :: rest =>
      (match m.name with
       | Option.some n =>
           { role := m.role, content := n ++ ": " ++ m.content,
             name := Option.none }
       | Option.none => m) :: convert_message_name_fields rest

/-- Anthropic wire tool-choice vocabulary
(`anthropic.types.message_create_params.ToolChoice` as produced at
`src/llm_api/anthropic_api.py:184-187`): `{"type": "any"}` or
`{"type": "auto"}`. -/
inductive AnthropicToolChoice
  | any
  | auto
deriving DecidableEq, Repr

/-- `AnthropicApi._convert_tool_choice_to_anthropic_format`
(`src/llm_api/anthropic_api.py:175-187`): "required" maps to "any"; both
"auto" and "none" map to "auto". -/
def convert_tool_choice_to_anthropic_format : ToolChoice → AnthropicToolChoice
  | ToolChoice.required => AnthropicToolChoice.any
  | _ => AnthropicToolChoice.auto

/-- Anthropic wire tool parameter (`anthropic.types.ToolParam` as produced
at `src/llm_api/anthropic_api.py:166-172`). -/
structure ToolParam where
  input_schema : String
  name : String
  description : Option String
deriving DecidableEq, Repr

/-- `AnthropicApi._convert_tools_to_anthropic_format`
(`src/llm_api/anthropic_api.py:158-173`): `None` passes through; otherwise
each `Tool` maps to a `ToolParam` taking `parameters`, `name`,
`description` from its `function`. -/
def convert_tools_to_anthropic_format : Option (List Tool) →
    Option (List ToolParam)
  | Option.none => Option.none
  | Option.some tools =>
      Option.some (tools.map fun tool =>
        ⟨tool.function.parameters, tool.function.name, tool.function.description⟩)

/-- The `completion_kwargs` dictionary passed to
`self._client.messages.create` (`src/llm_api/anthropic_api.py:68-77`):
`messages`, `system`, `model`, `max_tokens` always; `tools` and
`tool_choice` only when the caller supplied `tools`. -/
structure AnthropicRequest where
  messages : List Message
  system : String
  model : String
  max_tokens : Nat
  tools : Option (List ToolParam)
  tool_choice : Option AnthropicToolChoice
deriving DecidableEq, Repr

/-- Request-building portion of
`AnthropicApi._response_from_messages_implementation`
(`src/llm_api/anthropic_api.py:43-77`): convert tools and tool_choice,
extract system messages, fold name fields, then assemble
`completion_kwargs` with `max_tokens = 4096`; `tag` and `response_format`
are accepted by the implementation but never enter the request
(`response_format` only steers response parsing). -/
def anthropic_completion_kwargs (model : String) (messages : List Message)
    (tools : Option (List Tool)) (tool_choice : ToolChoice)
    (tag : Option String) (response_format : Option RespFormat) :
    AnthropicRequest :=
  let converted_tools := convert_tools_to_anthropic_format tools
  let converted_tool_choice := convert_tool_choice_to_anthropic_format tool_choice
  let extracted := extract_system_messages messages
  let non_system_messages := convert_message_name_fields extracted.other_messages
  let base : AnthropicRequest :=
    { messages := non_system_messages, system := extracted.system_prompt,
      model := model, max_tokens := 4096,
      tools := Option.none, tool_choice := Option.none }
  match tools with
  | Option.none => base
  | Option.some _ =>
      { base with tools := converted_tools,
                  tool_choice := Option.some converted_tool_choice }

/-- Anthropic response content blocks (`anthropic.types.ContentBlock`):
a plain `TextBlock`, or another block kind (e.g. `ToolUseBlock`, carried
here with its serialized payload). -/
inductive ContentBlock
  | text (text : String)
  | toolUse (id name input : String)
deriving DecidableEq, Repr

/-- `AnthropicApi._parse_content` (`src/llm_api/anthropic_api.py:103-120`):
when `response_format` is not "json" and the content list is exactly one
`TextBlock`, return its text verbatim; in every other case return
`json.dumps` of the full content list (the serializer `dumps` stands for
the external `json.dumps` on the blocks' dictionaries). -/
def parse_content (dumps : List ContentBlock → String)
    (content : List ContentBlock) (response_format : Option RespFormat) :
    String :=
  if response_format ≠ Option.some RespFormat.json then
    match content with
    | [ContentBlock.text t] => t
    | _ => dumps content
  else
    dumps content

/-- One entry of the static price table `PRICING_PER_MTOK`
(`src/llm_api/anthropic_api.py:14-19`): dollars per million tokens for
input and for output. -/
structure ModelPricing where
  input : ℚ
  output : ℚ
deriving DecidableEq, Repr

/-- `PRICING_PER_MTOK` (`src/llm_api/anthropic_api.py:14-19`): the sole
entry prices `claude-3-5-sonnet-20240620` at input 3, output 15. -/
def PRICING_PER_MTOK (model : String) : Option ModelPricing :=
  if model = "claude-3-5-sonnet-20240620" then
    Option.some ⟨3, 15⟩
  else
    Option.none

/-- Selector for the `"input"` / `"output"` key. -/
inductive InputOutput
  | input
  | output
deriving DecidableEq, Repr

/-- `AnthropicApi._token_cost` (`src/llm_api/anthropic_api.py:210-219`):
look the model up in the price table; when no price is found, warn
(second component `true`) and return cost 0; otherwise
`tokens / 1_000_000 * price_per_mtok`. -/
def token_cost (model : String) (tokens : Nat) (io : InputOutput) :
    ℚ × Bool :=
  match PRICING_PER_MTOK model with
  | Option.none => (0, true)
  | Option.some p =>
      ((tokens : ℚ) / 1000000 *
        (match io with
         | InputOutput.input => p.input
         | InputOutput.output => p.output), false)

/-- `AnthropicApi.parse_usage` (`src/llm_api/anthropic_api.py:189-202`):
read the token counts from the response, price input and output
separately, and return the `Usage` with their sum as `cost`; the Bool
records whether a pricing warning was emitted.  Total function: an
unpriced model degrades to cost 0, it never raises. -/
def anthropic_parse_usage (model : String) (input_tokens output_tokens : Nat)
    (tag : Option String) : Usage × Bool :=
  let (input_cost, w1) := token_cost model input_tokens InputOutput.input
  let (output_cost, w2) := token_cost model output_tokens InputOutput.output
  ({ input_tokens := input_tokens, output_tokens := output_tokens,
     cost := Option.some (input_cost + output_cost), tag := tag }, w1 || w2)

/-- The request actually sent by
`OllamaApi._response_from_messages_implementation`
(`src/llm_api/ollama_api.py:37-42`): `self._client.chat.completions.create`
receives only `model` and `messages` — the request shape has no tools
field at all. -/
structure OllamaRequest where
  model : String
  messages : List Message
deriving DecidableEq, Repr

/-- `OllamaApi._response_from_messages_implementation`
(`src/llm_api/ollama_api.py:29-46`): build the request from `model` and
`messages` only — `tools`, `tool_choice` and `response_format` are
accepted by the signature but never read, so no `NotImplementedError` (or
any other error) is raised on their account — issue the transport call,
and wrap the reply into `ResponseAndUsage` with `parse_usage(completion)`
(`src/llm_api/ollama_api.py:45,48-60`): token counts from the completion,
cost 0 since local Ollama is free, and `tag` is NOT forwarded to
`parse_usage`, whose default leaves the returned `Usage.tag` at `None`. -/
def ollama_response_from_messages_implementation (model : String)
    (transport : OllamaRequest → Except ProviderError (String × Nat × Nat))
    (messages : List Message) (tools : Option (List Tool))
    (tool_choice : ToolChoice) (tag : Option String)
    (response_format : Option RespFormat) :
    Except ProviderError (String × Usage) :=
  match transport { model := model, messages := messages } with
  | Except.error e => Except.error e
  | Except.ok (content, prompt_tokens, completion_tokens) =>
      Except.ok (content,
        { input_tokens := prompt_tokens, output_tokens := completion_tokens,
          cost := Option.some 0, tag := Option.none })

/-- Accumulator characterization of `extractSystemGo`: the loop appends,
to each accumulator, exactly the filtered sub-lists in original order. -/
theorem extractSystemGo_spec (msgs : List Message) (sys : List String)
    (others : List Message) :
    extractSystemGo msgs sys others =
      (sys ++ (msgs.filter fun m => m.role == Role.system).map Message.content,
       others ++ msgs.filter fun m => !(m.role == Role.system)) := by
  induction msgs generalizing sys others with
  | nil => simp [extractSystemGo]
  | cons m rest ih =>
      by_cases h : m.role = Role.system <;>
        simp [extractSystemGo, h, ih]

/-- C7: the Anthropic request translation removes exactly the system-role
messages, newline-joining their contents in original order into the single
`system` field, and keeps all other messages in their original relative
order. -/
theorem C7_extract_system_messages (messages : List Message) :
    (extract_system_messages messages).system_prompt =
      String.intercalate "\n"
        ((messages.filter fun m => m.role == Role.system).map Message.content)
    ∧ (extract_system_messages messages).other_messages =
      messages.filter fun m => !(m.role == Role.system) := by
  unfold extract_system_messages
  rw [extractSystemGo_spec]
  simp

/-- C10: every request assembled by the Anthropic adapter sets
`max_tokens` to exactly 4096, whatever the messages, tools, tool_choice,
tag and response_format arguments are. -/
theorem C10_anthropic_max_tokens_always_4096 (model : String)
    (messages : List Message) (tools : Option (List Tool))
    (tool_choice : ToolChoice) (tag : Option String)
    (response_format : Option RespFormat) :
    (anthropic_completion_kwargs model messages tools tool_choice tag
      response_format).max_tokens = 4096 := by
  unfold anthropic_completion_kwargs
  cases tools <;> rfl

/-- C8: Anthropic response normalization returns the single plain-text
block's text verbatim when JSON output was not requested, and returns the
JSON serialization of the full content list when JSON was requested or
when the content is not exactly one text block. -/
theorem C8_parse_content_cases (dumps : List ContentBlock → String)
    (content : List ContentBlock) (response_format : Option RespFormat) :
    (∀ t, response_format ≠ Option.some RespFormat.json →
        content = [ContentBlock.text t] →
        parse_content dumps content response_format = t)
    ∧ (response_format = Option.some RespFormat.json →
        parse_content dumps content response_format = dumps content)
    ∧ ((∀ t, content ≠ [ContentBlock.text t]) →
        parse_content dumps content response_format = dumps content) := by
  refine ⟨?_, ?_, ?_⟩
  · intro t h1 h2
    subst h2
    simp [parse_content, h1]
  · intro h
    simp [parse_content, h]
  · intro h
    unfold parse_content
    rcases content with _ | ⟨a, rest⟩
    · split <;> rfl
    · rcases a with t | tu
      · rcases rest with _ | ⟨b, rest2⟩
        · exact absurd rfl (h t)
        · split <;> rfl
      · split <;> rfl

/-- Closed instance of C8: a single plain-text block with no JSON request
comes back verbatim. -/
theorem C8_witness :
    parse_content (fun _ => "[dumped]") [ContentBlock.text "hello"]
      Option.none = "hello" :=
  (C8_parse_content_cases (fun _ => "[dumped]") [ContentBlock.text "hello"]
    Option.none).1 "hello" (by decide) rfl

/-- C6: Anthropic cost is `input_tokens/1e6 * input_price +
output_tokens/1e6 * output_price` from the static table; the priced model
at input 3 / output 15 with 1,000,000 input and 2,000,000 output tokens
costs exactly 33; an unpriced model yields cost 0 with a warning, and
`parse_usage` still returns a `Usage` (it is a total function: no error is
raised). -/
theorem C6_anthropic_cost (model : String) (input_tokens output_tokens : Nat)
    (tag : Option String) :
    ((anthropic_parse_usage "claude-3-5-sonnet-20240620" 1000000 2000000
        tag).1.cost = Option.some 33
      ∧ (anthropic_parse_usage "claude-3-5-sonnet-20240620" 1000000 2000000
        tag).2 = false)
    ∧ (∀ p, PRICING_PER_MTOK model = Option.some p →
        (anthropic_parse_usage model input_tokens output_tokens tag).1.cost =
          Option.some ((input_tokens : ℚ) / 1000000 * p.input +
                       (output_tokens : ℚ) / 1000000 * p.output))
    ∧ (PRICING_PER_MTOK model = Option.none →
        (anthropic_parse_usage model input_tokens output_tokens tag).1.cost =
          Option.some 0
        ∧ (anthropic_parse_usage model input_tokens output_tokens tag).2 =
          true) := by
  refine ⟨⟨?_, ?_⟩, ?_, ?_⟩
  · show Option.some ((1000000 : ℚ) / 1000000 * 3 +
      (2000000 : ℚ) / 1000000 * 15) = Option.some 33
    norm_num
  · rfl
  · intro p hp
    simp [anthropic_parse_usage, token_cost, hp]
  · intro hp
    refine ⟨?_, ?_⟩ <;> simp [anthropic_parse_usage, token_cost, hp]

/-- Closed instance of C6: an unpriced model gets cost 0 and the warning
flag. -/
theorem C6_witness :
    (anthropic_parse_usage "nonexistent" 1000000 2000000
        Option.none).1.cost = Option.some 0
    ∧ (anthropic_parse_usage "nonexistent" 1000000 2000000
        Option.none).2 = true :=
  (C6_anthropic_cost "nonexistent" 1000000 2000000 Option.none).2.2 rfl

/-- Counterexample to C5 as stated: with a non-empty tools list, the
Ollama adapter does NOT raise a "not implemented" condition — the call
completes normally (and the reply contains no trace of the tools). -/
theorem C5_counterexample :
    ollama_response_from_messages_implementation "llama3:8b"
        (fun _ => Except.ok ("hi", 1, 2))
        [⟨Role.user, "q", Option.none⟩]
        (Option.some [⟨"function", ⟨Option.none, "f", "schema"⟩⟩])
        ToolChoice.auto Option.none Option.none
      = Except.ok ("hi", ⟨1, 2, Option.some 0, Option.none⟩)
    ∧ ∀ msg, ollama_response_from_messages_implementation "llama3:8b"
        (fun _ => Except.ok ("hi", 1, 2))
        [⟨Role.user, "q", Option.none⟩]
        (Option.some [⟨"function", ⟨Option.none, "f", "schema"⟩⟩])
        ToolChoice.auto Option.none Option.none
      ≠ Except.error (ProviderError.notImplemented msg) := by
  exact ⟨rfl, fun msg h => by simp [ollama_response_from_messages_implementation] at h⟩

/-- C5 amended: the Ollama adapter silently drops a non-empty tools list
(the transport request is built from model and messages only, so the
result is independent of tools, tool_choice, tag and response_format),
and a successful transport call completes the request normally without
them, returning cost 0 and — since `tag` is not forwarded to
`parse_usage` — a `Usage` whose tag is `None`. -/
theorem C5_amended_ollama_drops_tools (model : String)
    (transport : OllamaRequest → Except ProviderError (String × Nat × Nat))
    (messages : List Message) (tools tools2 : Option (List Tool))
    (tool_choice tool_choice2 : ToolChoice) (tag tag2 : Option String)
    (response_format response_format2 : Option RespFormat) :
    ollama_response_from_messages_implementation model transport messages
        tools tool_choice tag response_format
      = ollama_response_from_messages_implementation model transport messages
        tools2 tool_choice2 tag2 response_format2
    ∧ (∀ reply : String × Nat × Nat,
        transport { model := model, messages := messages } = Except.ok reply →
        ollama_response_from_messages_implementation model transport messages
            tools tool_choice tag response_format
          = Except.ok (reply.1,
              ⟨reply.2.1, reply.2.2, Option.some 0, Option.none⟩)) := by
  refine ⟨rfl, ?_⟩
  intro reply h
  unfold ollama_response_from_messages_implementation
  rw [h]

/-- Closed instance of the amended C5: a concrete successful transport
with tools and a tag supplied returns normally, tools dropped and the
returned `Usage.tag` left at `None`. -/
theorem C5_witness :
    ollama_response_from_messages_implementation "llama3:8b"
        (fun _ => Except.ok ("ok", 3, 4))
        [⟨Role.user, "q", Option.none⟩]
        (Option.some [⟨"function", ⟨Option.none, "f", "schema"⟩⟩])
        ToolChoice.required (Option.some "lbl") Option.none
      = Except.ok ("ok", ⟨3, 4, Option.some 0, Option.none⟩) :=
  (C5_amended_ollama_drops_tools "llama3:8b"
      (fun _ => Except.ok ("ok", 3, 4))
      [⟨Role.user, "q", Option.none⟩]
      (Option.some [⟨"function", ⟨Option.none, "f", "schema"⟩⟩])
      Option.none ToolChoice.required ToolChoice.auto
      (Option.some "lbl") Option.none
      Option.none Option.none).2 ("ok", 3, 4) rfl

/-- C9: when the first choice of an OpenRouter response lacks a `message`
key, `response_from_messages` raises the
`ValueError("Response does not contain a message")` — it never returns a
default or empty string. -/
theorem C9_openrouter_missing_message_raises (s : ORState) (resp : ORResponse)
    (choice0 : ORChoice) (rest : List ORChoice)
    (h1 : resp.choices = choice0 :: rest) (h2 : choice0.message = Option.none) :
    (openrouter_response_from_messages s (Except.ok resp)).2 =
      Except.error (ORError.valueError "Response does not contain a message") := by
  cases resp with
  | mk choices usage =>
      simp only at h1
      subst h1
      cases choice0 with
      | mk message =>
          simp only at h2
          subst h2
          rfl

/-- Closed instance of C9 on a concrete malformed response. -/
theorem C9_witness :
    (openrouter_response_from_messages ⟨0, []⟩
        (Except.ok ⟨[⟨Option.none⟩], Option.none⟩)).2 =
      Except.error (ORError.valueError "Response does not contain a message") :=
  C9_openrouter_missing_message_raises ⟨0, []⟩ ⟨[⟨Option.none⟩], Option.none⟩
    ⟨Option.none⟩ [] rfl rfl

/-- Counterexample to C4 as stated: with `OPENROUTER_API_KEY` unset,
constructing an `OpenRouterAPI` does not raise `ConfigurationError` — it
raises `TypeError` (the overriding constructor passes no `api_key_name` to
the base constructor, and the class leaves abstract members
unimplemented), so the fail-fast credential check never runs for this
provider. -/
theorem C4_counterexample :
    raisesConfigurationError
        (openrouterInit "anthropic/claude-3-haiku:beta" (fun _ => Option.none))
      = false
    ∧ openrouterInit "anthropic/claude-3-haiku:beta" (fun _ => Option.none)
      = Except.error (InitError.typeError
          "LlmApi.__init__() missing 1 required positional argument: api_key_name") :=
  ⟨rfl, rfl⟩

/-- C4 amended: of the provider clients, only `GroqApi` performs the
fail-fast credential check — it is the one concrete subclass that reaches
the base `LlmApi` constructor, which raises `ConfigurationError` (and
produces no instance) whenever the named environment variable is unset or
empty.  `AnthropicApi` and `OllamaApi` leave the abstract property
`requires_alternating_roles` unimplemented and `OpenRouterAPI`
additionally passes no `api_key_name` to the base constructor, so
construction of those three raises `TypeError` for every environment and
never reaches a credential check. -/
theorem C4_amended_fail_fast (model api_key_name : String) (timeout : Int)
    (base_url : Option String) (env : String → Option String) :
    ((env api_key_name = Option.none ∨ env api_key_name = Option.some "") →
       llmApiInit model api_key_name timeout env
         = Except.error (InitError.configurationError
             (api_key_name ++ " env var is not set")))
    ∧ ((env "GROQ_API_KEY" = Option.none ∨
        env "GROQ_API_KEY" = Option.some "") →
       raisesConfigurationError (groqInit model env) = true)
    ∧ (∃ msg, anthropicInit model env
        = Except.error (InitError.typeError msg))
    ∧ (∃ msg, ollamaInit model base_url env
        = Except.error (InitError.typeError msg))
    ∧ (∃ msg, openrouterInit model env
        = Except.error (InitError.typeError msg)) := by
  have base : ∀ (name : String) (t : Int),
      (env name = Option.none ∨ env name = Option.some "") →
      llmApiInit model name t env
        = Except.error (InitError.configurationError
            (name ++ " env var is not set")) := by
    intro name t h
    rcases h with h | h <;> simp [llmApiInit, h]
  refine ⟨base api_key_name timeout, ?_, ?_, ?_, ?_⟩
  · intro h
    unfold groqInit
    rw [base "GROQ_API_KEY" 5 h]
    rfl
  · exact ⟨"Can't instantiate abstract class AnthropicApi with abstract method requires_alternating_roles",
      rfl⟩
  · exact ⟨"Can't instantiate abstract class OllamaApi with abstract method requires_alternating_roles",
      rfl⟩
  · exact ⟨"LlmApi.__init__() missing 1 required positional argument: api_key_name",
      rfl⟩

/-- Closed instance of the amended C4: with an empty environment, the Groq
constructor raises `ConfigurationError`, while the Anthropic one raises
`TypeError`. -/
theorem C4_witness :
    raisesConfigurationError
        (groqInit "mixtral-8x7b-32768" (fun _ => Option.none))
      = true
    ∧ ∃ msg, anthropicInit "mixtral-8x7b-32768" (fun _ => Option.none)
        = Except.error (InitError.typeError msg) :=
  ⟨(C4_amended_fail_fast "mixtral-8x7b-32768" "X" 5 Option.none
      (fun _ => Option.none)).2.1 (Or.inl rfl),
   (C4_amended_fail_fast "mixtral-8x7b-32768" "X" 5 Option.none
      (fun _ => Option.none)).2.2.1⟩

/-- Counterexample to C1 as stated: an OpenRouter call whose response
carries a usage payload (total_cost 5) but whose first choice lacks a
`message` key FAILS (raises `ValueError`) and yet `handle_usage` has run
exactly once, leaving `total_cost` changed from 0 to 5 — because
`OpenRouterAPI.response_from_messages` invokes its own `handle_usage`
before validating the `message` field. -/
theorem C1_counterexample :
    (openrouter_response_from_messages ⟨0, []⟩
        (Except.ok ⟨[⟨Option.none⟩], Option.some ⟨7, 9, 16, 5⟩⟩)).2
      = Except.error (ORError.valueError "Response does not contain a message")
    ∧ (openrouter_response_from_messages ⟨0, []⟩
        (Except.ok ⟨[⟨Option.none⟩], Option.some ⟨7, 9, 16, 5⟩⟩)).1.total_cost
      = 5
    ∧ (openrouter_response_from_messages ⟨0, []⟩
        (Except.ok ⟨[⟨Option.none⟩], Option.some ⟨7, 9, 16, 5⟩⟩)).1.usageEvents.length
      = 1 := by
  refine ⟨rfl, ?_, rfl⟩
  show (0 : ℚ) + 5 = 5
  norm_num

/-- C1 amended: for every adapter that implements the inherited facade
operation (`_response_from_messages_implementation` routed through
`LlmApi.response_from_messages`), `handle_usage` runs exactly once when
the delegated call succeeds — the usage-event trace grows by exactly that
call's record — and never runs when the delegated call raises, so a
failed call leaves `total_cost` (and the whole client state) unchanged.
`OpenRouterAPI` is the exception: it overrides the facade operation and
can run its `handle_usage` on a call that subsequently fails (see the
counterexample). -/
theorem C1_amended_facade_usage_accounting (ε : Type) (s : ClientState)
    (impl : List Message → Option (List Tool) → ToolChoice →
            Option String → Option RespFormat → Except ε (String × Usage))
    (messages : List Message) (tools : Option (List Tool))
    (tool_choice : ToolChoice) (tag : Option String)
    (response_format : Option RespFormat) :
    (∀ resp usage,
       impl messages tools tool_choice tag response_format
         = Except.ok (resp, usage) →
       response_from_messages s impl messages tools tool_choice tag
           response_format
         = (handle_usage s usage.input_tokens usage.output_tokens usage.cost
             usage.tag, Except.ok resp)
       ∧ (response_from_messages s impl messages tools tool_choice tag
           response_format).1.usageEvents
         = s.usageEvents ++
             [⟨usage.input_tokens, usage.output_tokens, usage.cost, usage.tag⟩])
    ∧ (∀ e, impl messages tools tool_choice tag response_format
         = Except.error e →
       response_from_messages s impl messages tools tool_choice tag
           response_format
         = (s, Except.error e)) := by
  constructor
  · intro resp usage h
    constructor
    · unfold response_from_messages response_from_messages_step
      rw [h]
    · unfold response_from_messages response_from_messages_step
      rw [h]
      cases hc : usage.cost <;> simp [handle_usage, hc]
  · intro e h
    unfold response_from_messages response_from_messages_step
    rw [h]

/-- Closed instance of the amended C1: a failing delegated call leaves the
state untouched. -/
theorem C1_witness :
    response_from_messages ⟨"m", "K", 5, "key", 0, []⟩
        (fun _ _ _ _ _ =>
          (Except.error (ProviderError.other "boom") :
            Except ProviderError (String × Usage)))
        [] Option.none ToolChoice.auto Option.none Option.none
      = (⟨"m", "K", 5, "key", 0, []⟩,
         Except.error (ProviderError.other "boom")) :=
  (C1_amended_facade_usage_accounting ProviderError ⟨"m", "K", 5, "key", 0, []⟩
      (fun _ _ _ _ _ => Except.error (ProviderError.other "boom"))
      [] Option.none ToolChoice.auto Option.none Option.none).2
    (ProviderError.other "boom") rfl

/-- One successful facade call adds that call's cost (0 when absent) to
`total_cost`. -/
theorem response_step_ok_total_cost {ε : Type} (s : ClientState)
    (resp : String) (usage : Usage) :
    (response_from_messages_step s
        (Except.ok (resp, usage) : Except ε (String × Usage))).1.total_cost
      = s.total_cost + usage.cost.getD 0 := by
  cases hc : usage.cost <;>
    simp [response_from_messages_step, handle_usage, hc]

/-- Folding successful calls sums their individual costs. -/
theorem run_calls_ok_total_cost {ε : Type} (s : ClientState)
    (calls : List (String × Usage)) :
    (run_calls s (calls.map
        (fun c => (Except.ok c : Except ε (String × Usage))))).total_cost
      = s.total_cost + (calls.map (fun c => c.2.cost.getD 0)).sum := by
  induction calls generalizing s with
  | nil => simp [run_calls]
  | cons c rest ih =>
      have step := @response_step_ok_total_cost ε s c.1 c.2
      simp only [List.map_cons, run_calls, List.foldl_cons] at ih ⊢
      rw [ih, List.sum_cons]
      rw [show ((Except.ok (c.1, c.2) : Except ε (String × Usage)))
            = Except.ok c by rfl] at step
      rw [step]
      ring

/-- C3: `total_cost` starts at 0 at construction; after any sequence of
successful facade calls it equals the initial total plus the sum of the
individual call costs (so N successful calls from a fresh client sum
their costs, e.g. 3, 0, 5 give 8); a call whose `Usage.cost` is `None`
leaves `total_cost` exactly unchanged. -/
theorem C3_total_cost_accumulator (model api_key_name : String)
    (timeout : Int) (env : String → Option String) :
    (∀ st, llmApiInit model api_key_name timeout env = Except.ok st →
       st.total_cost = 0)
    ∧ (∀ (s : ClientState) (calls : List (String × Usage)),
       (run_calls s (calls.map
           (fun c => (Except.ok c : Except Unit (String × Usage))))).total_cost
         = s.total_cost + (calls.map (fun c => c.2.cost.getD 0)).sum)
    ∧ (∀ (s : ClientState) (resp : String) (usage : Usage),
       usage.cost = Option.none →
       (response_from_messages_step s
           (Except.ok (resp, usage) : Except Unit (String × Usage))).1.total_cost
         = s.total_cost) := by
  refine ⟨?_, ?_, ?_⟩
  · intro st h
    unfold llmApiInit at h
    split at h
    · exact absurd h (by simp)
    · split at h
      · exact absurd h (by simp)
      · cases h
        rfl
  · intro s calls
    exact run_calls_ok_total_cost s calls
  · intro s resp usage h
    rw [response_step_ok_total_cost, h]
    simp

/-- Closed instance of C3: a fresh client (total 0) making three
successful calls costing 3, 0 and 5 ends with `total_cost = 8`. -/
theorem C3_witness :
    (run_calls ⟨"m", "K", 5, "key", 0, []⟩
        ([("a", ⟨1, 1, Option.some 3, Option.none⟩),
          ("b", ⟨1, 1, Option.some 0, Option.none⟩),
          ("c", ⟨1, 1, Option.some 5, Option.none⟩)].map
          (fun c => (Except.ok c : Except Unit (String × Usage))))).total_cost
      = 8 := by
  rw [(C3_total_cost_accumulator "m" "K" 5 (fun _ => Option.none)).2.1
    ⟨"m", "K", 5, "key", 0, []⟩
    [("a", ⟨1, 1, Option.some 3, Option.none⟩),
     ("b", ⟨1, 1, Option.some 0, Option.none⟩),
     ("c", ⟨1, 1, Option.some 5, Option.none⟩)]]
  norm_num

/-- A successful attempt breaks the retry loop at once. -/
theorem retryLoop_ok {α : Type} (transport : Nat → Except ProviderError α)
    (t m d att : Nat) (sleeps : List Nat) (a : α)
    (h : transport t = Except.ok a) :
    retryLoop transport t m d att sleeps = ⟨att + 1, sleeps, Except.ok a⟩ := by
  unfold retryLoop
  rw [h]

/-- A transient failure below the attempt cap sleeps for the current
delay, doubles it, and loops with the next attempt number. -/
theorem retryLoop_transient_retry {α : Type}
    (transport : Nat → Except ProviderError α) (t m d att : Nat)
    (sleeps : List Nat) (e : ProviderError)
    (h : transport t = Except.error e) (ht : isTransient e = true)
    (hlt : t < m) :
    retryLoop transport t m d att sleeps =
      retryLoop transport (t + 1) m (d * 2) (att + 1) (sleeps ++ [d]) := by
  conv_lhs => rw [retryLoop]
  rw [h]
  simp only [ht, if_true]
  rw [dif_neg (Nat.not_le.mpr hlt)]

/-- A transient failure at the attempt cap re-raises the original error. -/
theorem retryLoop_transient_exhausted {α : Type}
    (transport : Nat → Except ProviderError α) (t m d att : Nat)
    (sleeps : List Nat) (e : ProviderError)
    (h : transport t = Except.error e) (ht : isTransient e = true)
    (hge : t ≥ m) :
    retryLoop transport t m d att sleeps = ⟨att + 1, sleeps, Except.error e⟩ := by
  conv_lhs => rw [retryLoop]
  rw [h]
  simp only [ht, if_true]
  rw [dif_pos hge]

/-- A non-transient failure is uncaught and propagates at once. -/
theorem retryLoop_nontransient {α : Type}
    (transport : Nat → Except ProviderError α) (t m d att : Nat)
    (sleeps : List Nat) (e : ProviderError)
    (h : transport t = Except.error e) (ht : isTransient e = false) :
    retryLoop transport t m d att sleeps = ⟨att + 1, sleeps, Except.error e⟩ := by
  conv_lhs => rw [retryLoop]
  rw [h]
  simp [ht]

/-- C2: with a transport that raises a transient-class error on every
attempt, the retry loop makes exactly 3 attempts and sleeps exactly
twice — 30 then 60, the second interval twice the first — and after the
3rd failed attempt re-raises that attempt's error unmodified; a
non-transient error on the first attempt propagates immediately with no
retry and no sleep. -/
theorem C2_retry_policy (α : Type) :
    (∀ (transport : Nat → Except ProviderError α)
       (errs : Nat → ProviderError),
       (∀ n, transport n = Except.error (errs n)) →
       (∀ n, isTransient (errs n) = true) →
       response_with_retry transport = ⟨3, [30, 60], Except.error (errs 3)⟩)
    ∧ (∀ (transport : Nat → Except ProviderError α) (e : ProviderError),
       transport 1 = Except.error e → isTransient e = false →
       response_with_retry transport = ⟨1, [], Except.error e⟩) := by
  constructor
  · intro transport errs h ht
    unfold response_with_retry
    rw [retryLoop_transient_retry transport 1 3 30 0 [] (errs 1) (h 1) (ht 1)
        (by norm_num)]
    norm_num
    rw [retryLoop_transient_retry transport 2 3 60 1 [30] (errs 2) (h 2) (ht 2)
        (by norm_num)]
    norm_num
    rw [retryLoop_transient_exhausted transport 3 3 120 2 [30, 60] (errs 3)
        (h 3) (ht 3) (by norm_num)]
  · intro transport e h ht
    unfold response_with_retry
    rw [retryLoop_nontransient transport 1 3 30 0 [] e h ht]

/-- Closed instance of C2: a transport that always raises a rate-limit
error yields 3 attempts, sleeps of 30 and 60, and the re-raised error. -/
theorem C2_witness :
    response_with_retry
        (fun _ => (Except.error (ProviderError.rateLimit "429") :
          Except ProviderError String))
      = ⟨3, [30, 60], Except.error (ProviderError.rateLimit "429")⟩ :=
  (C2_retry_policy String).1
    (fun _ => Except.error (ProviderError.rateLimit "429"))
    (fun _ => ProviderError.rateLimit "429")
    (fun _ => rfl) (fun _ => rfl)

end LlmApiModel
